import Mathlib

/-
Verification of the gold hedge monitoring engine
(src/app.py and src/gold_hedge_trader.py).

Monetary quantities are modelled as exact rationals; the Python call
round(x, 2) is modelled by rounding 100*x to the nearest integer with
ties to even (Python's documented tie-breaking rule) and dividing by 100.
All definitions are transcribed from the source; the monitoring loop's
session state and the provider calls are embedded as explicit state and
outcome parameters.
-/

set_option maxRecDepth 10000

namespace Gold

/-- Round a rational to the nearest integer, ties to even: the model of
Python's built-in round applied to an exact value. -/
def rne (q : ℚ) : ℤ :=
if Int.fract q < 1/2 then ⌊q⌋
else if 1/2 < Int.fract q then ⌊q⌋ + 1
else if ⌊q⌋ % 2 = 0 then ⌊q⌋ else ⌊q⌋ + 1

/-- Model of the Python expression round(x, 2). -/
def round2 (q : ℚ) : ℚ := (rne (100 * q) : ℚ) / 100

lemma floor_le_rne (q : ℚ) : ⌊q⌋ ≤ rne q := by
  unfold rne
  split_ifs <;> omega

lemma rne_le_floor_add_one (q : ℚ) : rne q ≤ ⌊q⌋ + 1 := by
  unfold rne
  split_ifs <;> omega

lemma rne_intCast (n : ℤ) : rne (n : ℚ) = n := by
  have h : Int.fract (n : ℚ) < 1/2 := by
    rw [Int.fract_intCast]
    norm_num
  unfold rne
  rw [if_pos h, Int.floor_intCast]

lemma rne_mono {x y : ℚ} (h : x ≤ y) : rne x ≤ rne y := by
  rcases lt_or_eq_of_le (Int.floor_le_floor h) with hf | hf
  · have h1 := rne_le_floor_add_one x
    have h2 := floor_le_rne y
    omega
  · have hfr : Int.fract x ≤ Int.fract y := by
      unfold Int.fract
      rw [hf]
      linarith
    unfold rne
    rw [hf]
    split_ifs <;> first | omega | linarith

lemma rne_eq_of_lt_half {q : ℚ} {n : ℤ} (h0 : (n : ℚ) ≤ q) (h1 : q < (n : ℚ) + 1/2) :
    rne q = n := by
  have hf : ⌊q⌋ = n := Int.floor_eq_iff.mpr ⟨h0, by linarith⟩
  have hfr : Int.fract q < 1/2 := by
    unfold Int.fract
    rw [hf]
    linarith
  unfold rne
  rw [if_pos hfr, hf]

lemma rne_eq_of_half_lt {q : ℚ} {n : ℤ} (h0 : (n : ℚ) - 1/2 < q) (h1 : q < (n : ℚ)) :
    rne q = n := by
  have hf : ⌊q⌋ = n - 1 := by
    refine Int.floor_eq_iff.mpr ⟨?_, ?_⟩ <;> push_cast <;> linarith
  have hfr : 1/2 < Int.fract q := by
    unfold Int.fract
    rw [hf]
    push_cast
    linarith
  unfold rne
  rw [if_neg (by linarith), if_pos hfr, hf]
  omega

lemma round2_eq_exact {q : ℚ} {n : ℤ} (h : (n : ℚ) = 100 * q) : round2 q = q := by
  unfold round2
  rw [← h, rne_intCast]
  linarith

lemma round2_eq_low {q : ℚ} {n : ℤ} (h0 : (n : ℚ) ≤ 100 * q) (h1 : 100 * q < (n : ℚ) + 1/2) :
    round2 q = (n : ℚ) / 100 := by
  unfold round2
  rw [rne_eq_of_lt_half h0 h1]

lemma round2_eq_high {q : ℚ} {n : ℤ} (h0 : (n : ℚ) - 1/2 < 100 * q) (h1 : 100 * q < (n : ℚ)) :
    round2 q = (n : ℚ) / 100 := by
  unfold round2
  rw [rne_eq_of_half_lt h0 h1]

lemma round2_intCast (n : ℤ) : round2 (n : ℚ) = (n : ℚ) := by
  exact round2_eq_exact (n := 100 * n) (by push_cast; ring)

lemma round2_mono {x y : ℚ} (h : x ≤ y) : round2 x ≤ round2 y := by
  have h1 : rne (100 * x) ≤ rne (100 * y) := rne_mono (by linarith)
  have h2 : ((rne (100 * x) : ℚ)) ≤ ((rne (100 * y) : ℚ)) := by exact_mod_cast h1
  unfold round2
  linarith

lemma round2_round2 (q : ℚ) : round2 (round2 q) = round2 q := by
  have h : round2 q = ((rne (100 * q) : ℚ)) / 100 := rfl
  rw [h]
  exact round2_eq_exact (n := rne (100 * q)) (by field_simp)

/-- The fields of GoldHedgeStrategy as set by __init__ in src/app.py
lines 80-90 (identical in src/gold_hedge_trader.py lines 62-72). -/
structure GoldHedgeStrategy where
  initial_price : ℚ
  spread : ℚ
  deposit_a : ℚ
  deposit_b : ℚ
  lock_sell_price : ℚ
  lock_buy_price : ℚ
  breakeven_up : ℚ
  breakeven_down : ℚ
deriving DecidableEq

/-- GoldHedgeStrategy.__init__ (src/app.py lines 80-90).  The stored config
fields are rounded copies of the arguments, while the derived prices are
computed from the raw arguments: lock prices from the raw initial_price and
spread, breakevens from a stored lock price plus a raw deposit. -/
def mkStrategy (initial_price spread deposit_a deposit_b : ℚ) : GoldHedgeStrategy :=
  let lock_sell_price := round2 (initial_price - spread / 2)
  let lock_buy_price := round2 (initial_price + spread / 2)
  { initial_price := round2 initial_price
    spread := round2 spread
    deposit_a := round2 deposit_a
    deposit_b := round2 deposit_b
    lock_sell_price := lock_sell_price
    lock_buy_price := lock_buy_price
    breakeven_up := round2 (lock_buy_price + deposit_a)
    breakeven_down := round2 (lock_sell_price - deposit_b) }

/-- The numeric fields of the dict returned by calculate_real_profit
(src/app.py lines 92-108).  The timestamp field is wall-clock I/O and is
not modelled. -/
structure ProfitData where
  current_price : ℚ
  price_change : ℚ
  profit_up : ℚ
  profit_down : ℚ
  lock_sell_price : ℚ
  lock_buy_price : ℚ
  breakeven_up : ℚ
  breakeven_down : ℚ
deriving DecidableEq

/-- GoldHedgeStrategy.calculate_real_profit (src/app.py lines 92-108,
src/gold_hedge_trader.py lines 80-102). -/
def calculate_real_profit (s : GoldHedgeStrategy) (current_price : ℚ) : ProfitData :=
  let cp := round2 current_price
  { current_price := cp
    price_change := round2 (cp - s.initial_price)
    profit_up := round2 ((cp - s.lock_buy_price) - s.deposit_a)
    profit_down := round2 ((s.lock_sell_price - cp) - s.deposit_b)
    lock_sell_price := s.lock_sell_price
    lock_buy_price := s.lock_buy_price
    breakeven_up := s.breakeven_up
    breakeven_down := s.breakeven_down }

/-- Alert events emitted by the monitoring loop. -/
inductive Alert where
  | up : Alert
  | down : Alert
deriving DecidableEq

/-- The breach evaluation of a monitoring tick (src/app.py lines 264-275,
src/gold_hedge_trader.py lines 299-312): the raw fetched price is compared
against the breakeven thresholds, the upward check first. -/
def evalAlert (s : GoldHedgeStrategy) (real_price : ℚ) : Option Alert :=
  if s.breakeven_up ≤ real_price then some Alert.up
  else if real_price ≤ s.breakeven_down then some Alert.down
  else none

/-- The scenario strategy of the spec: initial 600, spread 4,
deposits 35 and 60. -/
def s600 : GoldHedgeStrategy := mkStrategy 600 4 35 60

lemma s600_initial : s600.initial_price = 600 := by
  show round2 (600 : ℚ) = 600
  exact round2_eq_exact (n := 60000) (by norm_num)

lemma s600_sell : s600.lock_sell_price = 598 := by
  show round2 ((600 : ℚ) - 4 / 2) = 598
  rw [round2_eq_exact (n := 59800) (by norm_num)]
  norm_num

lemma s600_buy : s600.lock_buy_price = 602 := by
  show round2 ((600 : ℚ) + 4 / 2) = 602
  rw [round2_eq_exact (n := 60200) (by norm_num)]
  norm_num

lemma s600_da : s600.deposit_a = 35 := by
  show round2 (35 : ℚ) = 35
  exact round2_eq_exact (n := 3500) (by norm_num)

lemma s600_db : s600.deposit_b = 60 := by
  show round2 (60 : ℚ) = 60
  exact round2_eq_exact (n := 6000) (by norm_num)

lemma s600_up : s600.breakeven_up = 637 := by
  show round2 (round2 ((600 : ℚ) + 4 / 2) + 35) = 637
  rw [round2_eq_exact (q := (600 : ℚ) + 4 / 2) (n := 60200) (by norm_num)]
  rw [round2_eq_exact (n := 63700) (by norm_num)]
  norm_num

lemma s600_down : s600.breakeven_down = 538 := by
  show round2 (round2 ((600 : ℚ) - 4 / 2) - 60) = 538
  rw [round2_eq_exact (q := (600 : ℚ) - 4 / 2) (n := 59800) (by norm_num)]
  rw [round2_eq_exact (n := 53800) (by norm_num)]
  norm_num

lemma profit_up_def (s : GoldHedgeStrategy) (p : ℚ) :
    (calculate_real_profit s p).profit_up =
      round2 ((round2 p - s.lock_buy_price) - s.deposit_a) := rfl

lemma profit_down_def (s : GoldHedgeStrategy) (p : ℚ) :
    (calculate_real_profit s p).profit_down =
      round2 ((s.lock_sell_price - round2 p) - s.deposit_b) := rfl

/-- C1: for config (600, 4, 35, 60) the constructor derives lock prices
598/602 and breakevens 637/538; profit_up at 640 is 3, profit_down at 530
is 8, and at 600 the profits are -37 and -62; the alert check fires
AlertUp at 640, AlertDown at 530 and nothing at 600. -/
theorem c1_scenario :
    s600.lock_sell_price = 598 ∧
    s600.lock_buy_price = 602 ∧
    s600.breakeven_up = 637 ∧
    s600.breakeven_down = 538 ∧
    (calculate_real_profit s600 640).profit_up = 3 ∧
    (calculate_real_profit s600 530).profit_down = 8 ∧
    (calculate_real_profit s600 600).profit_up = -37 ∧
    (calculate_real_profit s600 600).profit_down = -62 ∧
    evalAlert s600 640 = some Alert.up ∧
    evalAlert s600 530 = some Alert.down ∧
    evalAlert s600 600 = none := by
  have h640 : round2 (640 : ℚ) = 640 := round2_eq_exact (n := 64000) (by norm_num)
  have h600 : round2 (600 : ℚ) = 600 := round2_eq_exact (n := 60000) (by norm_num)
  have h530 : round2 (530 : ℚ) = 530 := round2_eq_exact (n := 53000) (by norm_num)
  refine ⟨s600_sell, s600_buy, s600_up, s600_down, ?_, ?_, ?_, ?_, ?_, ?_, ?_⟩
  · rw [profit_up_def, h640, s600_buy, s600_da]
    rw [round2_eq_exact (n := 300) (by norm_num)]
    norm_num
  · rw [profit_down_def, h530, s600_sell, s600_db]
    rw [round2_eq_exact (n := 800) (by norm_num)]
    norm_num
  · rw [profit_up_def, h600, s600_buy, s600_da]
    rw [round2_eq_exact (n := -3700) (by norm_num)]
    norm_num
  · rw [profit_down_def, h600, s600_sell, s600_db]
    rw [round2_eq_exact (n := -6200) (by norm_num)]
    norm_num
  · unfold evalAlert
    rw [s600_up, if_pos (by norm_num)]
  · unfold evalAlert
    rw [s600_up, s600_down, if_neg (by norm_num), if_pos (by norm_num)]
  · unfold evalAlert
    rw [s600_up, s600_down, if_neg (by norm_num), if_neg (by norm_num)]

/-- C2 (counterexample): for the raw constructor arguments
initial_price = 600.004 and spread = 0.036 the stored lock_sell_price is
599.99, while the claimed formula over the rounded stored fields
(initial 600.00, spread 0.04) yields 599.98. -/
theorem c2_counterexample :
    (mkStrategy 600.004 0.036 35 60).lock_sell_price ≠
      round2 ((mkStrategy 600.004 0.036 35 60).initial_price -
        (mkStrategy 600.004 0.036 35 60).spread / 2) := by
  have h1 : (mkStrategy (600.004 : ℚ) 0.036 35 60).lock_sell_price = (59999 : ℚ) / 100 := by
    show round2 ((600.004 : ℚ) - 0.036 / 2) = (59999 : ℚ) / 100
    exact round2_eq_high (by norm_num) (by norm_num)
  have h2 : (mkStrategy (600.004 : ℚ) 0.036 35 60).initial_price = 600 := by
    show round2 (600.004 : ℚ) = 600
    rw [round2_eq_low (n := 60000) (by norm_num) (by norm_num)]
    norm_num
  have h3 : (mkStrategy (600.004 : ℚ) 0.036 35 60).spread = (4 : ℚ) / 100 := by
    show round2 (0.036 : ℚ) = (4 : ℚ) / 100
    exact round2_eq_high (by norm_num) (by norm_num)
  rw [h1, h2, h3]
  rw [round2_eq_exact (n := 59998) (by norm_num)]
  norm_num

/-- C2 (amended): the constructor computes the thresholds from the raw
constructor arguments, so the claimed equations over the stored config
fields hold whenever the four arguments are already exact two-decimal
values (fixed points of round2). -/
theorem c2_thresholds (i sp a b : ℚ) (hi : round2 i = i) (hs : round2 sp = sp)
    (ha : round2 a = a) (hb : round2 b = b) :
    (mkStrategy i sp a b).lock_sell_price =
      round2 ((mkStrategy i sp a b).initial_price - (mkStrategy i sp a b).spread / 2) ∧
    (mkStrategy i sp a b).lock_buy_price =
      round2 ((mkStrategy i sp a b).initial_price + (mkStrategy i sp a b).spread / 2) ∧
    (mkStrategy i sp a b).breakeven_up =
      round2 ((mkStrategy i sp a b).lock_buy_price + (mkStrategy i sp a b).deposit_a) ∧
    (mkStrategy i sp a b).breakeven_down =
      round2 ((mkStrategy i sp a b).lock_sell_price - (mkStrategy i sp a b).deposit_b) := by
  refine ⟨?_, ?_, ?_, ?_⟩
  · show round2 (i - sp / 2) = round2 (round2 i - round2 sp / 2)
    rw [hi, hs]
  · show round2 (i + sp / 2) = round2 (round2 i + round2 sp / 2)
    rw [hi, hs]
  · show round2 (round2 (i + sp / 2) + a) = round2 (round2 (i + sp / 2) + round2 a)
    rw [ha]
  · show round2 (round2 (i - sp / 2) - b) = round2 (round2 (i - sp / 2) - round2 b)
    rw [hb]

/-- Witness for C2 (amended) at the two-decimal config (600, 4, 35, 60). -/
theorem c2_thresholds_witness :
    (mkStrategy 600 4 35 60).lock_sell_price =
      round2 ((mkStrategy 600 4 35 60).initial_price - (mkStrategy 600 4 35 60).spread / 2) ∧
    (mkStrategy 600 4 35 60).lock_buy_price =
      round2 ((mkStrategy 600 4 35 60).initial_price + (mkStrategy 600 4 35 60).spread / 2) ∧
    (mkStrategy 600 4 35 60).breakeven_up =
      round2 ((mkStrategy 600 4 35 60).lock_buy_price + (mkStrategy 600 4 35 60).deposit_a) ∧
    (mkStrategy 600 4 35 60).breakeven_down =
      round2 ((mkStrategy 600 4 35 60).lock_sell_price - (mkStrategy 600 4 35 60).deposit_b) :=
  c2_thresholds 600 4 35 60
    (round2_eq_exact (n := 60000) (by norm_num))
    (round2_eq_exact (n := 400) (by norm_num))
    (round2_eq_exact (n := 3500) (by norm_num))
    (round2_eq_exact (n := 6000) (by norm_num))

/-- C3: with nonnegative spread and deposits the derived thresholds are
ordered breakevenDown ≤ lockSellPrice ≤ lockBuyPrice ≤ breakevenUp. -/
theorem c3_threshold_ordering (i sp a b : ℚ) (hs : 0 ≤ sp) (ha : 0 ≤ a) (hb : 0 ≤ b) :
    (mkStrategy i sp a b).breakeven_down ≤ (mkStrategy i sp a b).lock_sell_price ∧
    (mkStrategy i sp a b).lock_sell_price ≤ (mkStrategy i sp a b).lock_buy_price ∧
    (mkStrategy i sp a b).lock_buy_price ≤ (mkStrategy i sp a b).breakeven_up := by
  refine ⟨?_, ?_, ?_⟩
  · show round2 (round2 (i - sp / 2) - b) ≤ round2 (i - sp / 2)
    calc round2 (round2 (i - sp / 2) - b) ≤ round2 (round2 (i - sp / 2)) :=
          round2_mono (by linarith)
      _ = round2 (i - sp / 2) := round2_round2 _
  · show round2 (i - sp / 2) ≤ round2 (i + sp / 2)
    exact round2_mono (by linarith)
  · show round2 (i + sp / 2) ≤ round2 (round2 (i + sp / 2) + a)
    calc round2 (i + sp / 2) = round2 (round2 (i + sp / 2)) := (round2_round2 _).symm
      _ ≤ round2 (round2 (i + sp / 2) + a) := round2_mono (by linarith)

/-- Witness for C3 at the config (600, 4, 35, 60). -/
theorem c3_threshold_ordering_witness :
    (mkStrategy 600 4 35 60).breakeven_down ≤ (mkStrategy 600 4 35 60).lock_sell_price ∧
    (mkStrategy 600 4 35 60).lock_sell_price ≤ (mkStrategy 600 4 35 60).lock_buy_price ∧
    (mkStrategy 600 4 35 60).lock_buy_price ≤ (mkStrategy 600 4 35 60).breakeven_up :=
  c3_threshold_ordering 600 4 35 60 (by norm_num) (by norm_num) (by norm_num)

/-- C5 (counterexample): prices 600 and 600.001 differ, yet both profit
figures are unchanged, because calculate_real_profit rounds the price to
two decimals first; strict monotonicity fails. -/
theorem c5_counterexample :
    (600 : ℚ) < 600.001 ∧
    ¬ ((calculate_real_profit s600 600).profit_up <
        (calculate_real_profit s600 600.001).profit_up) ∧
    ¬ ((calculate_real_profit s600 600.001).profit_down <
        (calculate_real_profit s600 600).profit_down) := by
  have h1 : round2 (600.001 : ℚ) = 600 := by
    rw [round2_eq_low (n := 60000) (by norm_num) (by norm_num)]
    norm_num
  have h2 : round2 (600 : ℚ) = 600 := round2_eq_exact (n := 60000) (by norm_num)
  refine ⟨by norm_num, ?_, ?_⟩
  · rw [profit_up_def, profit_up_def, h1, h2]
    exact lt_irrefl _
  · rw [profit_down_def, profit_down_def, h1, h2]
    exact lt_irrefl _

/-- C5 (amended): calculate_real_profit is weakly monotone in the price:
for p1 < p2, profit_up does not decrease and profit_down does not
increase. -/
theorem c5_monotone (s : GoldHedgeStrategy) (p1 p2 : ℚ) (h : p1 < p2) :
    (calculate_real_profit s p1).profit_up ≤ (calculate_real_profit s p2).profit_up ∧
    (calculate_real_profit s p2).profit_down ≤ (calculate_real_profit s p1).profit_down := by
  have hr : round2 p1 ≤ round2 p2 := round2_mono (le_of_lt h)
  constructor
  · rw [profit_up_def, profit_up_def]
    exact round2_mono (by linarith)
  · rw [profit_down_def, profit_down_def]
    exact round2_mono (by linarith)

/-- Witness for C5 (amended) at prices 600 and 640. -/
theorem c5_monotone_witness :
    (calculate_real_profit s600 600).profit_up ≤ (calculate_real_profit s600 640).profit_up ∧
    (calculate_real_profit s600 640).profit_down ≤ (calculate_real_profit s600 600).profit_down :=
  c5_monotone s600 600 640 (by norm_num)

/-- Python int() applied to a float: truncation toward zero. -/
def pyInt (q : ℚ) : ℤ := if 0 ≤ q then ⌊q⌋ else ⌈q⌉

/-- Python range(a, b, step) over integers, for a positive step. -/
def pyRange (a b step : ℤ) : List ℤ :=
  (List.range ((b - a + step - 1) / step).toNat).map (fun k => a + step * (k : ℤ))

/-- GoldHedgeStrategy.generate_profit_table (src/app.py lines 110-125,
src/gold_hedge_trader.py lines 104-121): the row dicts are the
calculate_real_profit results at each ladder price. -/
def generate_profit_table (s : GoldHedgeStrategy) (lo hi : ℚ) (step : ℤ) : List ProfitData :=
  let start_price := s.initial_price + lo
  let end_price := s.initial_price + hi
  let prices := (pyRange (pyInt start_price) (pyInt end_price + 1) step).map
    (fun p => round2 ((p : ℤ) : ℚ))
  prices.map (fun price => calculate_real_profit s price)

/-- The ladder strategy of the spec scenario: initial price 602.8. -/
def s6028 : GoldHedgeStrategy := mkStrategy 602.8 3 35 60

lemma s6028_initial : s6028.initial_price = 602.8 := by
  show round2 (602.8 : ℚ) = 602.8
  exact round2_eq_exact (n := 60280) (by norm_num)

lemma table6028 : generate_profit_table s6028 (-120) 120 20 =
    ([482, 502, 522, 542, 562, 582, 602, 622, 642, 662, 682, 702, 722] : List ℤ).map
      (fun z => calculate_real_profit s6028 ((z : ℤ) : ℚ)) := by
  have harg1 : s6028.initial_price + (-120 : ℚ) = 482.8 := by
    rw [s6028_initial]
    norm_num
  have harg2 : s6028.initial_price + (120 : ℚ) = 722.8 := by
    rw [s6028_initial]
    norm_num
  have e1 : pyInt (482.8 : ℚ) = 482 := by
    unfold pyInt
    rw [if_pos (by norm_num)]
    exact Int.floor_eq_iff.mpr ⟨by norm_num, by norm_num⟩
  have e2 : pyInt (722.8 : ℚ) = 722 := by
    unfold pyInt
    rw [if_pos (by norm_num)]
    exact Int.floor_eq_iff.mpr ⟨by norm_num, by norm_num⟩
  have e3 : pyRange 482 (722 + 1) 20 =
      ([482, 502, 522, 542, 562, 582, 602, 622, 642, 662, 682, 702, 722] : List ℤ) := by
    decide
  simp only [generate_profit_table, harg1, harg2, e1, e2, e3, List.map_cons, List.map_nil,
    round2_intCast]

lemma table6028_prices :
    (generate_profit_table s6028 (-120) 120 20).map ProfitData.current_price =
      [482, 502, 522, 542, 562, 582, 602, 622, 642, 662, 682, 702, 722] := by
  have hcp : ∀ z : ℤ, (calculate_real_profit s6028 ((z : ℤ) : ℚ)).current_price =
      ((z : ℤ) : ℚ) := by
    intro z
    show round2 ((z : ℤ) : ℚ) = _
    exact round2_intCast z
  rw [table6028]
  simp only [List.map_cons, List.map_nil, hcp]
  norm_num

lemma table6028_changes :
    (generate_profit_table s6028 (-120) 120 20).map ProfitData.price_change =
      [-120.8, -100.8, -80.8, -60.8, -40.8, -20.8, -0.8,
        19.2, 39.2, 59.2, 79.2, 99.2, 119.2] := by
  have hpc : ∀ z : ℤ, (calculate_real_profit s6028 ((z : ℤ) : ℚ)).price_change =
      ((z : ℤ) : ℚ) - 602.8 := by
    intro z
    show round2 (round2 ((z : ℤ) : ℚ) - s6028.initial_price) = _
    rw [round2_intCast, s6028_initial]
    exact round2_eq_exact (n := 100 * z - 60280) (by push_cast; ring_nf)
  rw [table6028]
  simp only [List.map_cons, List.map_nil, hpc]
  norm_num

/-- C4 (counterexample): the first ladder row for initialPrice 602.8 has
current price 482 (the start 482.8 is truncated by int()) and price change
-120.8, not 482.8 and -120 as claimed. -/
theorem c4_counterexample :
    ((generate_profit_table s6028 (-120) 120 20).map ProfitData.current_price).head? =
      some 482 ∧
    (482 : ℚ) ≠ 482.8 ∧
    ((generate_profit_table s6028 (-120) 120 20).map ProfitData.price_change).head? =
      some (-120.8) ∧
    (-120.8 : ℚ) ≠ -120 := by
  rw [table6028_prices, table6028_changes]
  refine ⟨rfl, by norm_num, rfl, by norm_num⟩

/-- C4 (amended): the ladder from initialPrice 602.8 over (-120, 120) with
step 20 has exactly 13 rows; their current prices are the truncated
integers 482, 502, ..., 722, and each row's price_change is its current
price minus 602.8, that is -120.8, -100.8, ..., +119.2. -/
theorem c4_table :
    (generate_profit_table s6028 (-120) 120 20).length = 13 ∧
    (generate_profit_table s6028 (-120) 120 20).map ProfitData.current_price =
      [482, 502, 522, 542, 562, 582, 602, 622, 642, 662, 682, 702, 722] ∧
    (generate_profit_table s6028 (-120) 120 20).map ProfitData.price_change =
      [-120.8, -100.8, -80.8, -60.8, -40.8, -20.8, -0.8,
        19.2, 39.2, 59.2, 79.2, 99.2, 119.2] := by
  refine ⟨?_, table6028_prices, table6028_changes⟩
  rw [table6028]
  simp

/-- The fields of the MetalPriceAPI JSON payload inspected by
get_global_gold_price: the truthiness of data.get("success") and the
optional rates.XAU entry. -/
structure ApiPayload where
  success : Bool
  rates_XAU : Option ℚ

/-- Outcome of the provider call in src/app.py lines 42-49: either the
request or the JSON decoding raised (network error, timeout, non-JSON
body, ...) or a decoded payload was obtained. -/
inductive ProviderOutcome where
  | exn : ProviderOutcome
  | payload : ApiPayload → ProviderOutcome

/-- The success flag and price of the dict returned by
get_global_gold_price (src/app.py lines 24-70). -/
structure GoldData where
  success : Bool
  gold_cny_g : ℚ

/-- get_global_gold_price (src/app.py lines 24-70): a successful payload
with an XAU rate is converted at 1 oz = 31.1035 g and 7.2 CNY/USD and
rounded; every other outcome, the raised exception included, produces the
static default price 602.8. -/
def get_global_gold_price : ProviderOutcome → GoldData
  | ProviderOutcome.exn => { success := false, gold_cny_g := 602.8 }
  | ProviderOutcome.payload p =>
    match p.success, p.rates_XAU with
    | true, some xau => { success := true, gold_cny_g := round2 (xau / 31.1035 * 7.2) }
    | true, none => { success := false, gold_cny_g := 602.8 }
    | false, _ => { success := false, gold_cny_g := 602.8 }

/-- get_realtime_gold_price of src/app.py lines 72-75. -/
def get_realtime_gold_price_app (o : ProviderOutcome) : ℚ :=
  (get_global_gold_price o).gold_cny_g

/-- Whether the single provider of src/app.py succeeded: the payload was
decoded with a truthy success flag and an XAU rate. -/
def appProviderOk : ProviderOutcome → Bool
  | ProviderOutcome.payload { success := true, rates_XAU := some _ } => true
  | _ => false

/-- The part of the Eastmoney JSON payload read by _eastmoney_gold_price:
the f43 field of data, when data is truthy and carries one. -/
structure EastPayload where
  data_f43 : Option ℚ

/-- Outcome of the Eastmoney provider call in src/gold_hedge_trader.py
lines 132-152. -/
inductive EastOutcome where
  | exn : EastOutcome
  | payload : EastPayload → EastOutcome

/-- _eastmoney_gold_price (src/gold_hedge_trader.py lines 132-152): any
exception is caught and, like a payload without data.f43, falls through to
the final return None; a present f43 is returned rounded. -/
def eastmoney_gold_price : EastOutcome → Option ℚ
  | EastOutcome.exn => none
  | EastOutcome.payload p =>
    match p.data_f43 with
    | some v => some (round2 v)
    | none => none

/-- get_realtime_gold_price (src/gold_hedge_trader.py lines 124-164): the
provider result is tested with Python truthiness (if price:), so both None
and a price of exactly 0.0 fall back to the static default 602.5. -/
def get_realtime_gold_price_trader (o : EastOutcome) : ℚ :=
  match eastmoney_gold_price o with
  | some p => if p = 0 then 602.5 else p
  | none => 602.5

/-- C6: the price fetch is a total function of the provider outcome, and
degrades to the configured static fallback whenever the provider fails:
602.8 in src/app.py and 602.5 in src/gold_hedge_trader.py. -/
theorem c6_fallback (o : ProviderOutcome) (e : EastOutcome)
    (ho : appProviderOk o = false) (he : eastmoney_gold_price e = none) :
    get_realtime_gold_price_app o = 602.8 ∧ get_realtime_gold_price_trader e = 602.5 := by
  constructor
  · cases o with
    | exn => rfl
    | payload p =>
      obtain ⟨su, xau⟩ := p
      cases su with
      | false => cases xau <;> rfl
      | true =>
        cases xau with
        | none => rfl
        | some v => exact absurd ho (by simp [appProviderOk])
  · unfold get_realtime_gold_price_trader
    rw [he]

/-- Witness for C6 at the all-providers-raise outcome. -/
theorem c6_fallback_witness :
    get_realtime_gold_price_app ProviderOutcome.exn = 602.8 ∧
    get_realtime_gold_price_trader EastOutcome.exn = 602.5 :=
  c6_fallback ProviderOutcome.exn EastOutcome.exn rfl rfl

/-- C10: an Eastmoney payload carrying the price 0.0 is fetched as some 0
by the provider, but the truthiness test of the chain discards it and the
static default 602.5 is returned instead. -/
theorem c10_zero_price :
    eastmoney_gold_price (EastOutcome.payload ⟨some 0⟩) = some 0 ∧
    get_realtime_gold_price_trader (EastOutcome.payload ⟨some 0⟩) = 602.5 ∧
    (602.5 : ℚ) ≠ 0 := by
  have h0 : round2 (0 : ℚ) = 0 := round2_eq_exact (n := 0) (by norm_num)
  have h1 : eastmoney_gold_price (EastOutcome.payload ⟨some 0⟩) = some 0 := by
    show some (round2 0) = some 0
    rw [h0]
  refine ⟨h1, ?_, by norm_num⟩
  unfold get_realtime_gold_price_trader
  rw [h1]
  simp

/-- One monitoring-tick append to the history buffer (src/app.py lines
260-262, src/gold_hedge_trader.py lines 295-297): append the snapshot,
then pop the oldest entry when the length exceeds 100. -/
def monitorAppend (monitor_data : List ProfitData) (snap : ProfitData) : List ProfitData :=
  let d := monitor_data ++ [snap]
  if 100 < d.length then d.drop 1 else d

lemma monitorAppend_foldl (xs : List ProfitData) :
    ∀ l : List ProfitData, l.length ≤ 100 →
      List.foldl monitorAppend l xs = (l ++ xs).drop (l.length + xs.length - 100) := by
  induction xs with
  | nil =>
    intro l h
    simp only [List.foldl_nil, List.append_nil, List.length_nil, Nat.add_zero,
      Nat.sub_eq_zero_of_le h, List.drop_zero]
  | cons x xs ih =>
    intro l h
    by_cases hl : l.length = 100
    · have hA : monitorAppend l x = (l ++ [x]).drop 1 := by
        unfold monitorAppend
        rw [if_pos (by simp [hl])]
      have hlen : ((l ++ [x]).drop 1).length = 100 := by
        simp [hl]
      rw [List.foldl_cons, hA, ih _ (le_of_eq hlen), hlen]
      have hc1 : 100 + xs.length - 100 = xs.length := by omega
      have hc2 : l.length + (x :: xs).length - 100 = 1 + xs.length := by
        simp only [List.length_cons, hl]
        omega
      have e1 : l ++ x :: xs = (l ++ [x]) ++ xs := by simp
      have e2 : List.drop 1 ((l ++ [x]) ++ xs) = (List.drop 1 (l ++ [x])) ++ xs :=
        List.drop_append_of_le_length (by simp)
      rw [hc1, hc2, e1, ← List.drop_drop, e2]
    · have hl' : l.length < 100 := lt_of_le_of_ne h hl
      have hA : monitorAppend l x = l ++ [x] := by
        unfold monitorAppend
        rw [if_neg (by simp; omega)]
      rw [List.foldl_cons, hA, ih _ (by simp; omega)]
      have hc : (l ++ [x]).length + xs.length - 100 = l.length + (x :: xs).length - 100 := by
        simp
        omega
      rw [hc, show (l ++ [x]) ++ xs = l ++ x :: xs by simp]

/-- C7: starting from an empty history, any sequence of tick appends keeps
the buffer at no more than 100 snapshots, and after exactly 101 appends
the first snapshot has been evicted while snapshots 2..101 remain in
insertion order. -/
theorem c7_history_bound (xs : List ProfitData) :
    (List.foldl monitorAppend [] xs).length ≤ 100 ∧
    (xs.length = 101 → List.foldl monitorAppend [] xs = xs.tail) := by
  have h := monitorAppend_foldl xs [] (by simp)
  simp only [List.nil_append, List.length_nil, Nat.zero_add] at h
  constructor
  · rw [h, List.length_drop]
    omega
  · intro h101
    rw [h, h101]
    norm_num [List.drop_one]

/-- Witness for C7 on a concrete run of 101 ticks. -/
theorem c7_history_bound_witness :
    (List.foldl monitorAppend [] (List.replicate 101 (calculate_real_profit s600 600))).length
        ≤ 100 ∧
    List.foldl monitorAppend [] (List.replicate 101 (calculate_real_profit s600 600)) =
      (List.replicate 101 (calculate_real_profit s600 600)).tail :=
  ⟨(c7_history_bound _).1, (c7_history_bound _).2 (by simp)⟩

/-- C8: per tick at most one alert is emitted; AlertUp is emitted exactly
when the price reached breakevenUp, otherwise AlertDown exactly when the
price reached breakevenDown, and when the two thresholds coincide the
upward alert wins because it is checked first. -/
theorem c8_alert_eval (s : GoldHedgeStrategy) (p : ℚ) :
    (evalAlert s p = some Alert.up ↔ s.breakeven_up ≤ p) ∧
    (p < s.breakeven_up → (evalAlert s p = some Alert.down ↔ p ≤ s.breakeven_down)) ∧
    (s.breakeven_up = s.breakeven_down → s.breakeven_up ≤ p →
      evalAlert s p = some Alert.up) := by
  unfold evalAlert
  refine ⟨⟨?_, ?_⟩, ?_, ?_⟩
  · intro heq
    by_contra hlt
    rw [if_neg hlt] at heq
    split_ifs at heq <;> simp at heq
  · intro hle
    rw [if_pos hle]
  · intro hlt
    rw [if_neg (not_le.mpr hlt)]
    constructor
    · intro heq
      by_contra hgt
      rw [if_neg hgt] at heq
      simp at heq
    · intro hle
      rw [if_pos hle]
  · intro _ hle
    rw [if_pos hle]

/-- Witness for C8 at the scenario strategy and prices 640 and 530. -/
theorem c8_alert_eval_witness :
    evalAlert s600 640 = some Alert.up ∧ evalAlert s600 530 = some Alert.down :=
  ⟨(c8_alert_eval s600 640).1.mpr (by rw [s600_up]; norm_num),
   ((c8_alert_eval s600 530).2.1 (by rw [s600_up]; norm_num)).mpr
     (by rw [s600_down]; norm_num)⟩

/-- The session state mutated by the monitoring block of main. -/
structure SessionState where
  monitor_data : List ProfitData
  monitor_running : Bool

/-- Where, if anywhere, an exception is raised inside the try block of a
monitoring tick: at the history append, at the alert evaluation, or at the
sleep/rerun step. -/
inductive TickExn where
  | ok : TickExn
  | atAppend : TickExn
  | atAlert : TickExn
  | atSleep : TickExn
deriving DecidableEq

/-- One execution of the monitoring block of main (src/app.py lines
258-281, src/gold_hedge_trader.py lines 293-318): when monitoring is
running, the tick appends to the bounded history, evaluates the breach
alert, and sleeps; an exception raised at any of these steps aborts the
remaining steps and is caught by the except arm, which reports the error
and sets monitor_running to False.  The result carries the new session
state, the alert emitted, and whether an error was reported. -/
def monitorStep (st : SessionState) (strategy : GoldHedgeStrategy)
    (profit_data : ProfitData) (real_price : ℚ) (exn : TickExn) :
    SessionState × Option Alert × Bool :=
  if st.monitor_running then
    match exn with
    | TickExn.ok =>
        (⟨monitorAppend st.monitor_data profit_data, true⟩,
          evalAlert strategy real_price, false)
    | TickExn.atAppend => (⟨st.monitor_data, false⟩, none, true)
    | TickExn.atAlert => (⟨monitorAppend st.monitor_data profit_data, false⟩, none, true)
    | TickExn.atSleep =>
        (⟨monitorAppend st.monitor_data profit_data, false⟩,
          evalAlert strategy real_price, true)
  else (st, none, false)

/-- C9: an exception raised during the append/alert/sleep steps of a
running monitoring tick is caught, reported, and turns monitoring off. -/
theorem c9_tick_exception (st : SessionState) (strategy : GoldHedgeStrategy)
    (profit_data : ProfitData) (real_price : ℚ) (exn : TickExn)
    (hrun : st.monitor_running = true) (hexn : exn ≠ TickExn.ok) :
    (monitorStep st strategy profit_data real_price exn).1.monitor_running = false ∧
    (monitorStep st strategy profit_data real_price exn).2.2 = true := by
  cases exn with
  | ok => exact absurd rfl hexn
  | atAppend => simp [monitorStep, hrun]
  | atAlert => simp [monitorStep, hrun]
  | atSleep => simp [monitorStep, hrun]

/-- Witness for C9: a tick that raises at the sleep step stops and reports. -/
theorem c9_tick_exception_witness :
    (monitorStep ⟨[], true⟩ s600 (calculate_real_profit s600 600) 600
        TickExn.atSleep).1.monitor_running = false ∧
    (monitorStep ⟨[], true⟩ s600 (calculate_real_profit s600 600) 600
        TickExn.atSleep).2.2 = true :=
  c9_tick_exception ⟨[], true⟩ s600 (calculate_real_profit s600 600) 600 TickExn.atSleep rfl
    (by decide)

end Gold
